import Mathlib

/-!
Shallow embedding of `envelopes.py` (rockinematics): the six kinematic
slope-stability envelope calculators and the plot orchestrator `setup_axes`.

Angles are modelled as exact rationals.  A quantity the Python code may
receive or return either as a scalar or as a 1-D numpy array is modelled by
`Val`.  The external pole-conversion service
`mplstereonet.pole2plunge_bearing` is an explicit parameter
`pole : ℚ → ℚ → ℚ × ℚ` applied elementwise.  Drawing calls on the stereonet
axes are recorded as a trace of `PlotAct` values instead of mutating a
global axes object; each calculator returns its numeric outputs paired with
the trace it would emit when `to_plot` is set.
-/

namespace Envelopes

/-- A numeric value that is either a scalar or a 1-D array (numpy style). -/
inductive Val where
  | num (x : ℚ)
  | arr (xs : List ℚ)
  deriving DecidableEq

/-- `np.atleast_1d`: a scalar becomes a one-element array, arrays are kept. -/
def atleast_1d : Val → List ℚ
  | Val.num x => [x]
  | Val.arr xs => xs

/-- Whether a value is an array (as opposed to a scalar). -/
def Val.isArr : Val → Bool
  | Val.num _ => false
  | Val.arr _ => true

/-- Length of an array value (0 for a scalar). -/
def Val.alen : Val → ℕ
  | Val.num _ => 0
  | Val.arr xs => xs.length

/-- Broadcast indexing: a scalar yields its value at every index, an array
yields its `i`-th element (default 0 out of range). -/
def Val.bget : Val → ℕ → ℚ
  | Val.num x, _ => x
  | Val.arr xs, i => xs.getD i 0

/-- `np.where(c, a, b)` on 1-D arrays: elementwise selection by the mask. -/
def npWhere : List Bool → List ℚ → List ℚ → List ℚ
  | c :: cs, x :: xs, y :: ys => (cond c x y) :: npWhere cs xs ys
  | _, _, _ => []

/-- One drawing primitive issued to the stereonet axes. -/
inductive PlotAct where
  | plane (strike dip : Val) (style : String)
  | cone (plunge bearing angle : Val) (facecolor edgecolor : String)
  | grid
  | title (t : String)
  deriving DecidableEq

/-- `planar_daylight(strike, dip, to_plot, facecolor, edgecolor, segments)`:
pole of the slope plane via the external service, then
plunge `45 + p/2`, bearing `p_bearing`, angle `45 - p/2 - 10^-9`. -/
def planar_daylight (pole : ℚ → ℚ → ℚ × ℚ) (strike dip : Val) (to_plot : Bool)
    (facecolor edgecolor : String) (segments : ℕ) :
    (Val × Val × Val) × List PlotAct :=
  let s := atleast_1d strike
  let d := atleast_1d dip
  let p_plunge := List.zipWith (fun a b => (pole a b).1) s d
  let p_bearing := List.zipWith (fun a b => (pole a b).2) s d
  let pde_plunge := p_plunge.map (fun p => 45 + p / 2)
  let pde_bearing := p_bearing
  let pde_angle := p_plunge.map (fun p => 45 - p / 2 - 1 / 1000000000)
  ((Val.arr pde_plunge, Val.arr pde_bearing, Val.arr pde_angle),
    if to_plot then
      [PlotAct.cone (Val.arr pde_plunge) (Val.arr pde_bearing) (Val.arr pde_angle)
        facecolor edgecolor]
    else [])

/-- `planar_friction(friction, to_plot, facecolor, edgecolor, segments)`:
vertical cone (plunge `90*ones`, bearing `zeros`) with half-angle `friction`. -/
def planar_friction (friction : Val) (to_plot : Bool) (facecolor edgecolor : String)
    (segments : ℕ) : (Val × Val × Val) × List PlotAct :=
  let f := atleast_1d friction
  let pfe_plunge := List.replicate f.length (90 : ℚ)
  let pfe_bearing := List.replicate f.length (0 : ℚ)
  let pfe_angle := f
  ((Val.arr pfe_plunge, Val.arr pfe_bearing, Val.arr pfe_angle),
    if to_plot then
      [PlotAct.cone (Val.arr pfe_plunge) (Val.arr pfe_bearing) (Val.arr pfe_angle)
        facecolor edgecolor]
    else [])

/-- `wedge_daylight(strike, dip, to_plot, linecolor, segments)`: the wedge
daylight envelope is the slope face itself. -/
def wedge_daylight (strike dip : Val) (to_plot : Bool) (linecolor : String)
    (segments : ℕ) : (Val × Val) × List PlotAct :=
  let wde_strike := atleast_1d strike
  let wde_dip := atleast_1d dip
  ((Val.arr wde_strike, Val.arr wde_dip),
    if to_plot then [PlotAct.plane (Val.arr wde_strike) (Val.arr wde_dip) linecolor]
    else [])

/-- `wedge_friction(friction, to_plot, facecolor, edgecolor, segments)`:
vertical cone with half-angle `90 - friction`. -/
def wedge_friction (friction : Val) (to_plot : Bool) (facecolor edgecolor : String)
    (segments : ℕ) : (Val × Val × Val) × List PlotAct :=
  let f := atleast_1d friction
  let wfe_plunge := List.replicate f.length (90 : ℚ)
  let wfe_bearing := List.replicate f.length (0 : ℚ)
  let wfe_angle := f.map (fun x => 90 - x)
  ((Val.arr wfe_plunge, Val.arr wfe_bearing, Val.arr wfe_angle),
    if to_plot then
      [PlotAct.cone (Val.arr wfe_plunge) (Val.arr wfe_bearing) (Val.arr wfe_angle)
        facecolor edgecolor]
    else [])

/-- `toppling_slipLimits(strike, dip, to_plot, linecolor, segments)`: scalar
plunge `0`, bearing the strike array, scalar angle `60`; the plot call
hardcodes `facecolor='none', edgecolor='b'` as in the source. -/
def toppling_slipLimits (strike dip : Val) (to_plot : Bool) (linecolor : String)
    (segments : ℕ) : (Val × Val × Val) × List PlotAct :=
  let s := atleast_1d strike
  let _d := atleast_1d dip
  ((Val.num 0, Val.arr s, Val.num 60),
    if to_plot then [PlotAct.cone (Val.num 0) (Val.arr s) (Val.num 60) "none" "b"]
    else [])

/-- `toppling_friction(strike, dip, friction, to_plot, linecolor, segments)`:
`tfe_dip = np.where(dip - friction > 0, dip - friction, np.zeros(len(strike)))`. -/
def toppling_friction (strike dip friction : Val) (to_plot : Bool)
    (linecolor : String) (segments : ℕ) : (Val × Val) × List PlotAct :=
  let f := atleast_1d friction
  let tfe_strike := atleast_1d strike
  let d := atleast_1d dip
  let tfe_dip := npWhere (List.zipWith (fun x y => decide (0 < x - y)) d f)
      (List.zipWith (fun x y => x - y) d f)
      (List.replicate tfe_strike.length 0)
  ((Val.arr tfe_strike, Val.arr tfe_dip),
    if to_plot then [PlotAct.plane (Val.arr tfe_strike) (Val.arr tfe_dip) linecolor]
    else [])

/-- The six envelope calculators, to record which ones `setup_axes` invokes. -/
inductive CalcId where
  | pDaylight
  | pFriction
  | wDaylight
  | wFriction
  | tSlipLimits
  | tFriction
  deriving DecidableEq

/-- Result of `setup_axes`: how many stereonet axes were created, the drawing
trace of each axis (in order), and which envelope calculators were invoked. -/
structure SetupResult where
  nAxes : ℕ
  traces : List (List PlotAct)
  invoked : List CalcId
  deriving DecidableEq

/-- `setup_axes(strike, dip, friction, failure, to_plot)`: dispatch on the
failure-mode selector; every axis first draws the slope face as a dashed
great circle, then (except in the fall-through branch) a title, the grid and
the two relevant calculators with their default colors. -/
def setup_axes (pole : ℚ → ℚ → ℚ × ℚ) (strike dip friction : Val)
    (failure : String) (to_plot : Bool) : SetupResult :=
  if failure = "all" then
    ⟨3,
      [[PlotAct.plane strike dip "k--", PlotAct.title "planar\n\n", PlotAct.grid]
          ++ (planar_friction friction to_plot "none" "r" 100).2
          ++ (planar_daylight pole strike dip to_plot "none" "b" 100).2,
        [PlotAct.plane strike dip "k--", PlotAct.title "wedge\n\n", PlotAct.grid]
          ++ (wedge_friction friction to_plot "none" "r" 100).2
          ++ (wedge_daylight strike dip to_plot "b" 100).2,
        [PlotAct.plane strike dip "k--", PlotAct.title "toppling\n\n", PlotAct.grid]
          ++ (toppling_friction strike dip friction to_plot "r" 100).2
          ++ (toppling_slipLimits strike dip to_plot "b" 100).2],
      [CalcId.pFriction, CalcId.pDaylight, CalcId.wFriction, CalcId.wDaylight,
        CalcId.tFriction, CalcId.tSlipLimits]⟩
  else if failure = "planar" then
    ⟨1,
      [[PlotAct.plane strike dip "k--", PlotAct.title "planar\n\n", PlotAct.grid]
          ++ (planar_friction friction to_plot "none" "r" 100).2
          ++ (planar_daylight pole strike dip to_plot "none" "b" 100).2],
      [CalcId.pFriction, CalcId.pDaylight]⟩
  else if failure = "wedge" then
    ⟨1,
      [[PlotAct.plane strike dip "k--", PlotAct.title "wedge\n\n", PlotAct.grid]
          ++ (wedge_friction friction to_plot "none" "r" 100).2
          ++ (wedge_daylight strike dip to_plot "b" 100).2],
      [CalcId.wFriction, CalcId.wDaylight]⟩
  else if failure = "toppling" then
    ⟨1,
      [[PlotAct.plane strike dip "k--", PlotAct.title "toppling\n\n", PlotAct.grid]
          ++ (toppling_friction strike dip friction to_plot "r" 100).2
          ++ (toppling_slipLimits strike dip to_plot "b" 100).2],
      [CalcId.tFriction, CalcId.tSlipLimits]⟩
  else
    ⟨1, [[PlotAct.plane strike dip "k--", PlotAct.grid]], []⟩

/-! ## Helper lemmas -/

theorem npWhere_clamp : ∀ (d f : List ℚ) (n : ℕ), d.length = f.length →
    d.length ≤ n →
    npWhere (List.zipWith (fun x y => decide (0 < x - y)) d f)
        (List.zipWith (fun x y => x - y) d f) (List.replicate n 0)
      = List.zipWith (fun x y => max (x - y) 0) d f := by
  intro d
  induction d with
  | nil => intro f n _ _; simp [npWhere]
  | cons x t ih =>
    intro f n hlen hn
    cases f with
    | nil => simp at hlen
    | cons y tf =>
      cases n with
      | zero => simp at hn
      | succ m =>
        have hh : cond (decide (0 < x - y)) (x - y) (0 : ℚ) = max (x - y) 0 := by
          by_cases h0 : (0 : ℚ) < x - y
          · simp [h0, max_eq_left h0.le]
          · simp [h0, max_eq_right (not_lt.1 h0)]
        simp only [List.zipWith_cons_cons, List.replicate_succ, npWhere, hh]
        simp only [List.length_cons] at hlen hn
        exact congrArg _ (ih tf m (by omega) (by omega))

theorem npWhere_length : ∀ (cs : List Bool) (xs ys : List ℚ),
    (npWhere cs xs ys).length = min (min cs.length xs.length) ys.length := by
  intro cs
  induction cs with
  | nil => intro xs ys; simp [npWhere]
  | cons c ct ih =>
    intro xs ys
    cases xs with
    | nil => simp [npWhere]
    | cons x xt =>
      cases ys with
      | nil => simp [npWhere]
      | cons y yt =>
        simp only [npWhere, List.length_cons, ih]
        omega

theorem clamp_nonneg : ∀ (d f : List ℚ),
    ∀ q ∈ List.zipWith (fun x y => max (x - y) 0) d f, 0 ≤ q := by
  intro d
  induction d with
  | nil => intro f q hq; simp at hq
  | cons x t ih =>
    intro f q hq
    cases f with
    | nil => simp at hq
    | cons y tf =>
      simp only [List.zipWith_cons_cons, List.mem_cons] at hq
      rcases hq with h | h
      · rw [h]; exact le_max_right _ _
      · exact ih tf q h

theorem getD_map_lt (g : ℚ → ℚ) : ∀ (l : List ℚ) (i : ℕ), i < l.length →
    (l.map g).getD i 0 = g (l.getD i 0) := by
  intro l
  induction l with
  | nil => intro i hi; simp at hi
  | cons x t ih =>
    intro i hi
    cases i with
    | zero => simp
    | succ j =>
      simp only [List.map_cons, List.getD_cons_succ]
      exact ih j (by simpa using hi)

theorem getD_replicate_lt (a b : ℚ) : ∀ (n i : ℕ), i < n →
    (List.replicate n a).getD i b = a := by
  intro n
  induction n with
  | zero => intro i hi; omega
  | succ m ih =>
    intro i hi
    cases i with
    | zero => simp [List.replicate_succ]
    | succ j =>
      simp only [List.replicate_succ, List.getD_cons_succ]
      exact ih j (by omega)

/-! ## Claims -/

/-- C1: for every strike, dip and friction given as equal-length sequences,
`toppling_friction` returns the strike unchanged and a dip output equal to
`max(dip - friction, 0)` elementwise, so the returned dip is never negative. -/
theorem toppling_friction_clamp (s d f : List ℚ) (hsd : s.length = d.length)
    (hdf : d.length = f.length) (tp : Bool) (lc : String) (seg : ℕ) :
    (toppling_friction (Val.arr s) (Val.arr d) (Val.arr f) tp lc seg).1
      = (Val.arr s, Val.arr (List.zipWith (fun x y => max (x - y) 0) d f))
    ∧ ∀ q ∈ List.zipWith (fun x y => max (x - y) 0) d f, 0 ≤ q := by
  constructor
  · simp only [toppling_friction, atleast_1d]
    rw [npWhere_clamp d f s.length hdf (le_of_eq hsd.symm)]
  · exact clamp_nonneg d f

theorem toppling_friction_clamp_witness :
    ([45, 45] : List ℚ).length = ([70, 20] : List ℚ).length
    ∧ ([70, 20] : List ℚ).length = ([30, 30] : List ℚ).length
    ∧ ((toppling_friction (Val.arr [45, 45]) (Val.arr [70, 20]) (Val.arr [30, 30])
          false "r" 100).1
        = (Val.arr [45, 45],
            Val.arr (List.zipWith (fun x y => max (x - y) 0) [70, 20] [30, 30]))
      ∧ ∀ q ∈ List.zipWith (fun x y => max (x - y) 0) ([70, 20] : List ℚ) [30, 30],
          0 ≤ q) :=
  ⟨by decide, by decide,
    toppling_friction_clamp [45, 45] [70, 20] [30, 30] (by decide) (by decide)
      false "r" 100⟩

/-- C2: for every strike and dip input, `planar_daylight` returns, elementwise,
plunge `45 + p/2`, bearing `p_b`, angle `45 - p/2 - 10^-9`, where `(p, p_b)`
is the pole of the input plane as computed by the external pole service. -/
theorem planar_daylight_formulas (pole : ℚ → ℚ → ℚ × ℚ) (v w : Val) (tp : Bool)
    (fc ec : String) (seg : ℕ) :
    (planar_daylight pole v w tp fc ec seg).1
      = (Val.arr (List.zipWith (fun a b => 45 + (pole a b).1 / 2)
            (atleast_1d v) (atleast_1d w)),
          Val.arr (List.zipWith (fun a b => (pole a b).2)
            (atleast_1d v) (atleast_1d w)),
          Val.arr (List.zipWith (fun a b => 45 - (pole a b).1 / 2 - 1 / 1000000000)
            (atleast_1d v) (atleast_1d w))) := by
  simp [planar_daylight, List.map_zipWith]

/-- C3, corrected part: the claim that all values returned by
`toppling_slipLimits` are arrays is false: its plunge output is a scalar. -/
theorem toppling_slipLimits_plunge_not_array :
    Val.isArr ((toppling_slipLimits (Val.arr [10, 20]) (Val.arr [50, 60])
        false "b" 100).1.1) = false := rfl

/-- C3, amended: with equal-length sequence inputs, every returned array has
the common input length; both outputs of `toppling_friction` are arrays of
that length, while `toppling_slipLimits` returns its bearing as an array of
that length but its plunge and angle as the scalars 0 and 60. -/
theorem calculators_output_lengths (pole : ℚ → ℚ → ℚ × ℚ) (s d f : List ℚ)
    (hsd : s.length = d.length) (hdf : d.length = f.length) (tp : Bool)
    (fc ec lc : String) (seg : ℕ) :
    ((planar_daylight pole (Val.arr s) (Val.arr d) tp fc ec seg).1.1.alen = s.length
      ∧ (planar_daylight pole (Val.arr s) (Val.arr d) tp fc ec seg).1.2.1.alen = s.length
      ∧ (planar_daylight pole (Val.arr s) (Val.arr d) tp fc ec seg).1.2.2.alen = s.length)
    ∧ ((planar_friction (Val.arr f) tp fc ec seg).1.1.alen = f.length
      ∧ (planar_friction (Val.arr f) tp fc ec seg).1.2.1.alen = f.length
      ∧ (planar_friction (Val.arr f) tp fc ec seg).1.2.2.alen = f.length)
    ∧ ((wedge_daylight (Val.arr s) (Val.arr d) tp lc seg).1.1.alen = s.length
      ∧ (wedge_daylight (Val.arr s) (Val.arr d) tp lc seg).1.2.alen = s.length)
    ∧ ((wedge_friction (Val.arr f) tp fc ec seg).1.1.alen = f.length
      ∧ (wedge_friction (Val.arr f) tp fc ec seg).1.2.1.alen = f.length
      ∧ (wedge_friction (Val.arr f) tp fc ec seg).1.2.2.alen = f.length)
    ∧ ((toppling_friction (Val.arr s) (Val.arr d) (Val.arr f) tp lc seg).1.1.isArr = true
      ∧ (toppling_friction (Val.arr s) (Val.arr d) (Val.arr f) tp lc seg).1.2.isArr = true
      ∧ (toppling_friction (Val.arr s) (Val.arr d) (Val.arr f) tp lc seg).1.1.alen = s.length
      ∧ (toppling_friction (Val.arr s) (Val.arr d) (Val.arr f) tp lc seg).1.2.alen = s.length)
    ∧ ((toppling_slipLimits (Val.arr s) (Val.arr d) tp lc seg).1.1 = Val.num 0
      ∧ (toppling_slipLimits (Val.arr s) (Val.arr d) tp lc seg).1.2.1 = Val.arr s
      ∧ (toppling_slipLimits (Val.arr s) (Val.arr d) tp lc seg).1.2.2 = Val.num 60) := by
  refine ⟨⟨?_, ?_, ?_⟩, ⟨?_, ?_, ?_⟩, ⟨?_, ?_⟩, ⟨?_, ?_, ?_⟩,
    ⟨?_, ?_, ?_, ?_⟩, ⟨?_, ?_, ?_⟩⟩
  all_goals
    simp [planar_daylight, planar_friction, wedge_daylight, wedge_friction,
      toppling_friction, toppling_slipLimits, atleast_1d, Val.alen, Val.isArr,
      npWhere_length, hsd, hdf]

theorem calculators_output_lengths_witness :
    ([1, 2] : List ℚ).length = ([3, 4] : List ℚ).length
    ∧ ([3, 4] : List ℚ).length = ([5, 6] : List ℚ).length
    ∧ (toppling_slipLimits (Val.arr [1, 2]) (Val.arr [3, 4]) false "b" 100).1.1
        = Val.num 0 :=
  ⟨by decide, by decide,
    (calculators_output_lengths (fun a b => (a + b, a - b)) [1, 2] [3, 4] [5, 6]
      (by decide) (by decide) false "none" "r" "b" 100).2.2.2.2.2.1⟩

/-- C4: `toppling_slipLimits` returns plunge 0, bearing equal to the strike
input elementwise, and angle 60 at every element, whatever the length. -/
theorem toppling_slipLimits_values (v w : Val) (tp : Bool) (lc : String)
    (seg : ℕ) (i : ℕ) (h : i < (atleast_1d v).length) :
    ((toppling_slipLimits v w tp lc seg).1.1).bget i = 0
    ∧ ((toppling_slipLimits v w tp lc seg).1.2.1).bget i = (atleast_1d v).getD i 0
    ∧ ((toppling_slipLimits v w tp lc seg).1.2.2).bget i = 60 := ⟨rfl, rfl, rfl⟩

theorem toppling_slipLimits_values_witness :
    1 < (atleast_1d (Val.arr [10, 20])).length
    ∧ (((toppling_slipLimits (Val.arr [10, 20]) (Val.arr [50, 60]) false "b" 100).1.1).bget 1 = 0
      ∧ ((toppling_slipLimits (Val.arr [10, 20]) (Val.arr [50, 60]) false "b" 100).1.2.1).bget 1
          = (atleast_1d (Val.arr [10, 20])).getD 1 0
      ∧ ((toppling_slipLimits (Val.arr [10, 20]) (Val.arr [50, 60]) false "b" 100).1.2.2).bget 1 = 60) :=
  ⟨by decide,
    toppling_slipLimits_values (Val.arr [10, 20]) (Val.arr [50, 60]) false "b" 100 1
      (by decide)⟩

/-- C5: `wedge_daylight` returns its input unchanged for every sequence input
(and, for any input, the normalised values unchanged), so feeding its output
to the pole-conversion service yields the same poles as the original
orientation. -/
theorem wedge_daylight_identity (pole : ℚ → ℚ → ℚ × ℚ) (s d : List ℚ)
    (v w : Val) (tp : Bool) (lc : String) (seg : ℕ) :
    (wedge_daylight (Val.arr s) (Val.arr d) tp lc seg).1 = (Val.arr s, Val.arr d)
    ∧ (wedge_daylight v w tp lc seg).1
        = (Val.arr (atleast_1d v), Val.arr (atleast_1d w))
    ∧ List.zipWith pole (atleast_1d (wedge_daylight v w tp lc seg).1.1)
          (atleast_1d (wedge_daylight v w tp lc seg).1.2)
        = List.zipWith pole (atleast_1d v) (atleast_1d w) :=
  ⟨rfl, rfl, rfl⟩

/-- C6: `wedge_friction` returns a cone with plunge 90 and bearing 0 at every
element and angle `90 - friction` elementwise, for any friction including
values above 90 (a negative angle is returned, not an error). -/
theorem wedge_friction_values (f : Val) (tp : Bool) (fc ec : String) (seg : ℕ)
    (i : ℕ) (h : i < (atleast_1d f).length) :
    (wedge_friction f tp fc ec seg).1
      = (Val.arr (List.replicate (atleast_1d f).length 90),
          Val.arr (List.replicate (atleast_1d f).length 0),
          Val.arr ((atleast_1d f).map (fun x => 90 - x)))
    ∧ ((wedge_friction f tp fc ec seg).1.1).bget i = 90
    ∧ ((wedge_friction f tp fc ec seg).1.2.1).bget i = 0
    ∧ ((wedge_friction f tp fc ec seg).1.2.2).bget i = 90 - (atleast_1d f).getD i 0 := by
  refine ⟨rfl, ?_, ?_, ?_⟩
  · exact getD_replicate_lt 90 0 _ i h
  · exact getD_replicate_lt 0 0 _ i h
  · exact getD_map_lt (fun x => 90 - x) (atleast_1d f) i h

theorem wedge_friction_values_witness :
    0 < (atleast_1d (Val.num 120)).length
    ∧ ((wedge_friction (Val.num 120) false "none" "r" 100).1
          = (Val.arr (List.replicate (atleast_1d (Val.num 120)).length 90),
              Val.arr (List.replicate (atleast_1d (Val.num 120)).length 0),
              Val.arr ((atleast_1d (Val.num 120)).map (fun x => 90 - x)))
      ∧ ((wedge_friction (Val.num 120) false "none" "r" 100).1.1).bget 0 = 90
      ∧ ((wedge_friction (Val.num 120) false "none" "r" 100).1.2.1).bget 0 = 0
      ∧ ((wedge_friction (Val.num 120) false "none" "r" 100).1.2.2).bget 0
          = 90 - (atleast_1d (Val.num 120)).getD 0 0)
    ∧ ((wedge_friction (Val.num 120) false "none" "r" 100).1.2.2).bget 0 = -30 :=
  ⟨by decide, wedge_friction_values (Val.num 120) false "none" "r" 100 0 (by decide),
    by norm_num [wedge_friction, atleast_1d, Val.bget]⟩

/-- C7: at every element, the angle returned by `planar_daylight` is strictly
below the nominal `45 - pole_plunge/2`, and the difference is exactly 10^-9. -/
theorem planar_daylight_epsilon (pole : ℚ → ℚ → ℚ × ℚ) (v w : Val) (tp : Bool)
    (fc ec : String) (seg : ℕ) (i : ℕ)
    (h : i < (List.zipWith (fun a b => (pole a b).1)
        (atleast_1d v) (atleast_1d w)).length) :
    (atleast_1d (planar_daylight pole v w tp fc ec seg).1.2.2).getD i 0
      < 45 - ((List.zipWith (fun a b => (pole a b).1)
          (atleast_1d v) (atleast_1d w)).getD i 0) / 2
    ∧ (45 - ((List.zipWith (fun a b => (pole a b).1)
          (atleast_1d v) (atleast_1d w)).getD i 0) / 2)
        - (atleast_1d (planar_daylight pole v w tp fc ec seg).1.2.2).getD i 0
      = 1 / 1000000000 := by
  have he : (atleast_1d (planar_daylight pole v w tp fc ec seg).1.2.2).getD i 0
      = 45 - ((List.zipWith (fun a b => (pole a b).1)
          (atleast_1d v) (atleast_1d w)).getD i 0) / 2 - 1 / 1000000000 := by
    show ((List.zipWith (fun a b => (pole a b).1) (atleast_1d v) (atleast_1d w)).map
        (fun p => 45 - p / 2 - 1 / 1000000000)).getD i 0 = _
    exact getD_map_lt (fun p => 45 - p / 2 - 1 / 1000000000) _ i h
  constructor
  · rw [he]; linarith
  · rw [he]; ring

theorem planar_daylight_epsilon_witness :
    0 < (List.zipWith (fun a b => (((fun x y => ((y : ℚ), (x : ℚ))) a b).1))
        (atleast_1d (Val.num 135)) (atleast_1d (Val.num 50))).length
    ∧ ((atleast_1d (planar_daylight (fun x y => (y, x)) (Val.num 135) (Val.num 50)
          false "none" "b" 100).1.2.2).getD 0 0
        < 45 - ((List.zipWith (fun a b => (((fun x y => ((y : ℚ), (x : ℚ))) a b).1))
            (atleast_1d (Val.num 135)) (atleast_1d (Val.num 50))).getD 0 0) / 2
      ∧ (45 - ((List.zipWith (fun a b => (((fun x y => ((y : ℚ), (x : ℚ))) a b).1))
            (atleast_1d (Val.num 135)) (atleast_1d (Val.num 50))).getD 0 0) / 2)
          - (atleast_1d (planar_daylight (fun x y => (y, x)) (Val.num 135) (Val.num 50)
              false "none" "b" 100).1.2.2).getD 0 0
        = 1 / 1000000000) :=
  ⟨by decide,
    planar_daylight_epsilon (fun x y => (y, x)) (Val.num 135) (Val.num 50)
      false "none" "b" 100 0 (by decide)⟩

/-- C8: every calculator gives identical output on a scalar argument and on
the corresponding one-element sequence. -/
theorem scalar_singleton_equivalence (pole : ℚ → ℚ → ℚ × ℚ) (a b f : ℚ)
    (tp : Bool) (fc ec lc : String) (seg : ℕ) :
    planar_daylight pole (Val.num a) (Val.num b) tp fc ec seg
      = planar_daylight pole (Val.arr [a]) (Val.arr [b]) tp fc ec seg
    ∧ planar_friction (Val.num f) tp fc ec seg
      = planar_friction (Val.arr [f]) tp fc ec seg
    ∧ wedge_daylight (Val.num a) (Val.num b) tp lc seg
      = wedge_daylight (Val.arr [a]) (Val.arr [b]) tp lc seg
    ∧ wedge_friction (Val.num f) tp fc ec seg
      = wedge_friction (Val.arr [f]) tp fc ec seg
    ∧ toppling_slipLimits (Val.num a) (Val.num b) tp lc seg
      = toppling_slipLimits (Val.arr [a]) (Val.arr [b]) tp lc seg
    ∧ toppling_friction (Val.num a) (Val.num b) (Val.num f) tp lc seg
      = toppling_friction (Val.arr [a]) (Val.arr [b]) (Val.arr [f]) tp lc seg :=
  ⟨rfl, rfl, rfl, rfl, rfl, rfl⟩

/-- C9: `setup_axes` with a failure selector outside
planar/wedge/toppling/all returns a single axis on which only the slope-face
great circle and the grid are drawn, and invokes no envelope calculator. -/
theorem setup_axes_unknown_failure (pole : ℚ → ℚ → ℚ × ℚ)
    (strike dip friction : Val) (failure : String) (tp : Bool)
    (h1 : failure ≠ "all") (h2 : failure ≠ "planar") (h3 : failure ≠ "wedge")
    (h4 : failure ≠ "toppling") :
    setup_axes pole strike dip friction failure tp
      = ⟨1, [[PlotAct.plane strike dip "k--", PlotAct.grid]], []⟩ := by
  simp [setup_axes, h1, h2, h3, h4]

theorem setup_axes_unknown_failure_witness :
    ("bogus" ≠ "all" ∧ "bogus" ≠ "planar" ∧ "bogus" ≠ "wedge"
      ∧ "bogus" ≠ "toppling")
    ∧ setup_axes (fun a b => (a, b)) (Val.num 45) (Val.num 60) (Val.num 30)
        "bogus" true
      = ⟨1, [[PlotAct.plane (Val.num 45) (Val.num 60) "k--", PlotAct.grid]], []⟩ :=
  ⟨⟨by decide, by decide, by decide, by decide⟩,
    setup_axes_unknown_failure (fun a b => (a, b)) (Val.num 45) (Val.num 60)
      (Val.num 30) "bogus" true (by decide) (by decide) (by decide) (by decide)⟩

/-- C10: for every calculator, the numeric outputs do not depend on
`segments` or on the color/style options. -/
theorem style_independence (pole : ℚ → ℚ → ℚ × ℚ) (v w f : Val) (tp : Bool)
    (fc1 ec1 lc1 fc2 ec2 lc2 : String) (seg1 seg2 : ℕ) :
    (planar_daylight pole v w tp fc1 ec1 seg1).1
      = (planar_daylight pole v w tp fc2 ec2 seg2).1
    ∧ (planar_friction f tp fc1 ec1 seg1).1 = (planar_friction f tp fc2 ec2 seg2).1
    ∧ (wedge_daylight v w tp lc1 seg1).1 = (wedge_daylight v w tp lc2 seg2).1
    ∧ (wedge_friction f tp fc1 ec1 seg1).1 = (wedge_friction f tp fc2 ec2 seg2).1
    ∧ (toppling_slipLimits v w tp lc1 seg1).1 = (toppling_slipLimits v w tp lc2 seg2).1
    ∧ (toppling_friction v w f tp lc1 seg1).1 = (toppling_friction v w f tp lc2 seg2).1 :=
  ⟨rfl, rfl, rfl, rfl, rfl, rfl⟩

end Envelopes
